import Mathlib

/-!
Verification development for git-fleximod (src/git-fleximod.py).

The script manages checkout of git submodules described in a .gitmodules
manifest.  We give a shallow embedding of its decision logic: the manifest is
a list of component records, the Python string/tuple membership tests are made
explicit, filesystem state is a finite map of directories and files, and each
external git invocation is recorded as an effect.  Helper modules of the
repository (modules/gitmodules.py, modules/gitinterface.py, modules/utils.py)
are not under src/; where their behaviour matters it is modelled from the
spec, as marked in the doc comments.
-/

namespace GitFleximod

/-- Modelled from the spec: modules/gitmodules.py (the Manifest Reader) is not
under src/.  A manifest is an ordered list of component records with the keys
recognised in section 6 of the spec; a key that is absent or empty is the
empty string (both Python None and the empty string are falsy, which is the
only way the main script consults these values). -/
structure Component where
  name : String
  path : String
  url : String
  esmtag : String
  esmrequired : String
  esmsparse : String
deriving DecidableEq

/-- os.path.join for the two-argument relative uses in the source. -/
def pjoin (a b : String) : String := a ++ "/" ++ b

/-- Right-hand side of a Python `in` test as it occurs in the source: either a
tuple of strings (lines 138 and 140) or a plain string (line 216, where
("I:T") is not a one-element tuple but the string "I:T"). -/
inductive PyStrSeq where
  | tuple (elems : List String)
  | str (s : String)
deriving DecidableEq

/-- Python `needle in hay` for strings: substring containment (the empty
string is a substring of every string). -/
def strIn (needle hay : String) : Bool :=
  go needle.data hay.data
where
  go (n : List Char) : List Char → Bool
    | [] => n.isEmpty
    | h :: t => n.isPrefixOf (h :: t) || go n t

/-- Python `e in seq` for the two right-hand-side shapes that occur in the
source: element membership for a tuple, substring containment for a string. -/
def pyIn (e : String) : PyStrSeq → Bool
  | .tuple xs => xs.contains e
  | .str s => strIn e s

/-- Lines 137-140 of commandline_arguments: the accepted requirement-class
set, a tuple of class tokens widened by the --optional flag. -/
def commandline_esmrequired (opt : Bool) : PyStrSeq :=
  if opt then .tuple ["T:T", "T:F", "I:T"] else .tuple ["T:T", "I:T"]

/-- Line 216 of submodule_checkout: the recursive install pass is invoked as
submodules_install(gitmodules, repodir, ("I:T")).  In Python ("I:T") is the
plain string "I:T" (a one-element tuple would be ("I:T",)), so the membership
test of line 262 becomes substring containment on "I:T". -/
def nested_requiredlist : PyStrSeq := .str "I:T"

/-- What the install loop body (lines 256-269) does with one component:
skip silently, skip with a printed notice, or dispatch to the sparse or the
full checkout strategy. -/
inductive InstallAction where
  | skipSilent
  | skipNotice (msg : String)
  | sparse
  | full
deriving DecidableEq

/-- Lines 262-269 of submodules_install, for one component: if esmrequired is
not in requiredlist the component is skipped (with a printed notice exactly
when "T:F" occurs in esmrequired as a substring); otherwise the sparse
strategy is chosen when esmsparse is truthy and the full strategy otherwise. -/
def installStep (requiredlist : PyStrSeq) (c : Component) : InstallAction :=
  if pyIn c.esmrequired requiredlist = false then
    if strIn "T:F" c.esmrequired then
      .skipNotice ("Skipping optional component " ++ c.name)
    else
      .skipSilent
  else if c.esmsparse != "" then
    .sparse
  else
    .full

/-- Only the sparse branch of the install dispatch ever reaches
submodule_sparse_checkout, hence ever creates a sparse-checkout
configuration file. -/
def InstallAction.invokesSparse : InstallAction → Bool
  | .sparse => true
  | _ => false

/-- Line 232 / 234 / 236 of submodules_status: the line printed for one
component, given the declared tag from the manifest and the description atag
returned by git describe.  Python `if tag and atag != tag` tests truthiness of
tag (empty means absent) and then string inequality. -/
def statusLine (name tag atag : String) : String :=
  if (tag != "") && (atag != tag) then
    "Submodule " ++ name ++ " " ++ atag ++ " is out of sync with .gitmodules " ++ tag
  else if tag != "" then
    "Submodule " ++ name ++ " at tag " ++ tag
  else
    "Submodule " ++ name ++ " has no tag defined in .gitmodules"

/-- Lines 224-236, submodules_status.  Modelled from the spec: the git
describe invocation goes through the VCS Interface (modules/gitinterface.py,
not under src/), which per section 4.2 of the spec raises VcsOperationFailed
on nonzero exit; entering the component directory (utils.pushd) can fail the
same way.  The oracle describeOf gives, per component name, either the
description string or the raised error.  The loop body has no handler, so an
error propagates: the result is the list of status lines printed before the
failure, together with the propagated error if any. -/
def submodules_status (describeOf : String → Except String String) :
    List Component → List String × Option String
  | [] => ([], none)
  | c :: rest =>
    match describeOf c.name with
    | .error e => ([], some e)
    | .ok atag =>
      let r := submodules_status describeOf rest
      (statusLine c.name c.esmtag atag :: r.1, r.2)

/-- One git invocation made by the update loop. -/
inductive GitEffect where
  | lsRemote
  | remoteAdd (rname url : String)
  | checkout (tag : String)
deriving DecidableEq

/-- Lines 239-252, submodules_update.  hasGit is the os.path.exists oracle
for the path/.git marker of each component; upstream is the result of the
`ls-remote --get-url` query in the root repository (modelled from the spec:
the VCS Interface raises on failure, represented by the error case, and the
loop has no handler, so the error aborts the remaining components).  The
result is the list of git invocations performed, plus the propagated error
if any. -/
def submodules_update (hasGit : String → Bool)
    (upstream : Except String String) :
    List Component → List GitEffect × Option String
  | [] => ([], none)
  | c :: rest =>
    if hasGit (pjoin c.path ".git") then
      match upstream with
      | .error e => ([.lsRemote], some e)
      | .ok up =>
        if up != c.url then
          let r := submodules_update hasGit upstream rest
          (GitEffect.lsRemote :: .remoteAdd "newbranch" c.url :: .checkout c.esmtag :: r.1, r.2)
        else
          let r := submodules_update hasGit upstream rest
          (GitEffect.lsRemote :: r.1, r.2)
    else
      submodules_update hasGit upstream rest

/-- Result of the full checkout of one component (lines 217-221): a success
line or a fatal error, each naming the component. -/
inductive CheckoutResult where
  | success (msg : String)
  | fatal (msg : String)
deriving DecidableEq

/-- Lines 207-221, submodule_checkout.  The `git submodule update --init`
invocation and the recursive install pass mutate the filesystem; the oracle
ex describes os.path.exists over the resulting tree.  The first part of the
result records whether a nested .gitmodules manifest was found and, if so,
the requirement filter handed to the recursive submodules_install pass of
line 216 (always nested_requiredlist); the second part is the postcondition
check of lines 217-221 on the path/.git marker. -/
def submodule_checkout (ex : String → Bool) (root name path : String) :
    Option PyStrSeq × CheckoutResult :=
  let repodir := pjoin root path
  let nestedPass : Option PyStrSeq :=
    if ex (pjoin repodir ".gitmodules") then some nested_requiredlist else none
  if ex (pjoin repodir ".git") then
    (nestedPass, .success ("Successfully checked out " ++ name))
  else
    (nestedPass, .fatal ("Failed to checkout " ++ name))

/-- Shallow filesystem state: the set of directory paths and a map from file
paths to contents.  Only the entries the script touches are tracked. -/
structure FS where
  dirs : List String
  files : List (String × String)
deriving DecidableEq

/-- os.path.isdir. -/
def FS.isdir (fs : FS) (q : String) : Bool := fs.dirs.any (fun d => d == q)

/-- os.path.isfile / os.path.exists on a tracked file. -/
def FS.isfile (fs : FS) (q : String) : Bool := fs.files.any (fun e => e.1 == q)

/-- Content of a tracked file. -/
def FS.readFile (fs : FS) (q : String) : Option String :=
  (fs.files.find? (fun e => e.1 == q)).map (·.2)

/-- os.makedirs. -/
def FS.mkdirs (fs : FS) (p : String) : FS := { fs with dirs := p :: fs.dirs }

/-- open(p, "w").write(c): create or overwrite the file at p. -/
def FS.writeFile (fs : FS) (p c : String) : FS :=
  { fs with files := (p, c) :: fs.files.filter (fun e => e.1 != p) }

/-- shutil.move of a directory to a destination that does not exist yet:
the directory is renamed from src to dst. -/
def FS.moveDir (fs : FS) (src dst : String) : FS :=
  { fs with dirs := dst :: fs.dirs.filter (fun d => d != src) }

/-- One observable side effect of submodule_sparse_checkout: either a git
invocation, a logged warning, or the final success print. -/
inductive SpEffect where
  | revParse
  | configSet (sec key value : String)
  | remoteAdd (rname url : String)
  | fetch (args : String)
  | checkout (tag : String)
  | warnAlready (name : String)
  | printSuccess (name : String)
deriving DecidableEq

/-- Which sparse-checkout effects touch the network: only the fetch does
(rev-parse, config, remote add and the post-fetch checkout are local). -/
def SpEffect.isNetwork : SpEffect → Bool
  | .fetch _ => true
  | _ => false

/-- Line 177: topdir/.git/modules, the shared metadata store of the
top-level repository. -/
def sparse_topgit0 (topdir : String) : String :=
  pjoin (pjoin topdir ".git") "modules"

/-- Line 178: the sparse-checkout configuration file kept in the store entry
of a component name. -/
def sparse_gitsparse (topdir name : String) : String :=
  pjoin (pjoin (pjoin (sparse_topgit0 topdir) name) "info") "sparse-checkout"

/-- Lines 170-171: create the module directory if absent. -/
def sparse_fs1 (fs0 : FS) (path : String) : FS :=
  if fs0.isdir path then fs0 else fs0.mkdirs path

/-- posixpath.relpath on already-resolved paths: drop the common leading
components, then one ".." per remaining component of start followed by the
remaining components of target (resolution of relative inputs against the
process working directory is elided). -/
def os_relpath (target start : String) : String :=
  let t := (target.splitOn "/").filter (fun s => s != "")
  let s := (start.splitOn "/").filter (fun s => s != "")
  let r := dropCommon t s
  let parts := r.2.map (fun _ => "..") ++ r.1
  if parts.isEmpty then "." else String.intercalate "/" parts
where
  dropCommon : List String → List String → List String × List String
    | a :: as, b :: bs => if a == b then dropCommon as bs else (a :: as, b :: bs)
    | as, bs => (as, bs)

/-- Lines 183-204 of submodule_sparse_checkout, the branch taken when the
idempotency guard did not fire.  Modelled from the spec: constructing
GitInterface on topdir/path initializes a fresh repository there (spec 4.4
step 3), creating the path/.git metadata directory; config and remote-add are
recorded as effects.  Then: create the store root if absent (lines 190-191),
move path/.git into the store entry topgit (line 194), copy the declared
sparse file into the sparse-checkout slot of the store entry (line 196;
shutil.copy fails if the source file is absent, which propagates as an
error), write the gitdir redirect pointer over path/.git (lines 198-199), and
finally fetch and checkout (lines 202-204). -/
def sparse_fullrun (topdir : String) (fs1 : FS)
    (name url path sparsefile tag : String) :
    FS × List SpEffect × Except String Unit :=
  let fs2 := fs1.mkdirs (pjoin path ".git")
  let fs3 := if fs2.isdir (sparse_topgit0 topdir) then fs2
             else fs2.mkdirs (sparse_topgit0 topdir)
  let topgit := pjoin (sparse_topgit0 topdir) name
  let fs4 := fs3.moveDir (pjoin path ".git") topgit
  match fs4.readFile (pjoin path sparsefile) with
  | none =>
    (fs4,
     [.revParse, .configSet "core" "sparseCheckout" "true", .remoteAdd "origin" url],
     .error ("failed to copy sparse file for " ++ name))
  | some content =>
    ((fs4.writeFile (sparse_gitsparse topdir name) content).writeFile
       (pjoin path ".git") ("gitdir: " ++ os_relpath topgit path),
     [.revParse, .configSet "core" "sparseCheckout" "true", .remoteAdd "origin" url,
      .fetch "--depth=1 origin --tags", .checkout tag, .printSuccess name],
     .ok ())

/-- Lines 168-204, submodule_sparse_checkout.  topdir is the result of the
rev-parse query of line 175 (always performed, a local operation).  The
guard of lines 179-181 returns early, with a logged warning, when the store
already holds a sparse-checkout configuration file for this name. -/
def submodule_sparse_checkout (topdir : String) (fs0 : FS)
    (name url path sparsefile tag : String) :
    FS × List SpEffect × Except String Unit :=
  let fs1 := sparse_fs1 fs0 path
  if fs1.isfile (sparse_gitsparse topdir name) then
    (fs1, [.revParse, .warnAlready name], .ok ())
  else
    sparse_fullrun topdir fs1 name url path sparsefile tag

/-! Concrete inputs used to exercise the model on closed instances. -/

/-- An exists-oracle for a tree where every queried path is present. -/
def exAll : String → Bool := fun _ => true

/-- A nested component whose esmrequired key is empty (section 6 of the spec
lists the empty requirement class as legal). -/
def emptyClassNested : Component :=
  { name := "inner", path := "libs/inner", url := "https://x/inner",
    esmtag := "", esmrequired := "", esmsparse := "" }

/-- Two sibling components of one manifest. -/
def cmpA : Component :=
  { name := "alpha", path := "ext/alpha", url := "https://x/alpha",
    esmtag := "v1", esmrequired := "T:T", esmsparse := "" }

def cmpB : Component :=
  { name := "beta", path := "ext/beta", url := "https://x/beta",
    esmtag := "v2", esmrequired := "T:T", esmsparse := "" }

/-- A describe oracle that raises on alpha and succeeds on beta. -/
def describeFail : String → Except String String :=
  fun n => if n == "alpha" then .error "git describe failed" else .ok "v2"

/-- A Tested-required component without a sparse spec. -/
def c4_comp : Component :=
  { name := "core", path := "ext/core", url := "https://x/core",
    esmtag := "v3", esmrequired := "T:T", esmsparse := "" }

/-- A Tested-optional component. -/
def c5_comp : Component :=
  { name := "extra", path := "ext/extra", url := "https://x/extra",
    esmtag := "v4", esmrequired := "T:F", esmsparse := "" }

/-- An Internal-optional component: not in any accepted set and without the
"T:F" token. -/
def c10_comp : Component :=
  { name := "hidden", path := "ext/hidden", url := "https://x/hidden",
    esmtag := "v5", esmrequired := "I:F", esmsparse := "" }

/-- Initial tree for a sparse component: the declared sparse file is present
in the working tree, nothing else exists yet. -/
def demo_fs0 : FS := { dirs := [], files := [("ext/foo/.sparse", "docs/*")] }

/-- The result of a first sparse install of the demo component. -/
def demo_run : FS × List SpEffect × Except String Unit :=
  submodule_sparse_checkout "/top" demo_fs0 "foo" "https://x/foo" "ext/foo" ".sparse" "v1"

/-! Auxiliary list lemmas used by the filesystem reasoning. -/

theorem any_filter_of_compat {α : Type} (l : List α) (p f : α → Bool)
    (hcompat : ∀ a, f a = true → p a = true) :
    (l.filter p).any f = l.any f := by
  induction l with
  | nil => rfl
  | cons a t ih =>
    by_cases hpa : p a = true
    · simp [List.filter_cons, hpa, List.any_cons, ih]
    · have hfa : f a = false := by
        cases hf : f a
        · rfl
        · exact absurd (hcompat a hf) hpa
      simp [List.filter_cons, hpa, List.any_cons, hfa, ih]

theorem find?_filter_of_compat {α : Type} (l : List α) (p f : α → Bool)
    (hcompat : ∀ a, f a = true → p a = true) :
    (l.filter p).find? f = l.find? f := by
  induction l with
  | nil => rfl
  | cons a t ih =>
    by_cases hpa : p a = true
    · by_cases hfa : f a = true
      · simp [List.filter_cons, hpa, List.find?_cons, hfa]
      · simp only [Bool.not_eq_true] at hfa
        simp [List.filter_cons, hpa, List.find?_cons, hfa, ih]
    · have hfa : f a = false := by
        cases hf : f a
        · rfl
        · exact absurd (hcompat a hf) hpa
      simp [List.filter_cons, hpa, List.find?_cons, hfa, ih]

theorem any_filter_excluded {α : Type} (l : List α) (p f : α → Bool)
    (hexcl : ∀ a, p a = true → f a = false) :
    (l.filter p).any f = false := by
  induction l with
  | nil => rfl
  | cons a t ih =>
    by_cases hpa : p a = true
    · simp [List.filter_cons, hpa, List.any_cons, hexcl a hpa, ih]
    · simp [List.filter_cons, hpa, ih]

/-! Behaviour of the filesystem primitives. -/

theorem FS.isdir_mkdirs_self (fs : FS) (p : String) :
    (fs.mkdirs p).isdir p = true := by
  simp [FS.mkdirs, FS.isdir, List.any_cons]

theorem FS.isdir_mkdirs_mono (fs : FS) (p q : String) (h : fs.isdir q = true) :
    (fs.mkdirs p).isdir q = true := by
  simp only [FS.mkdirs, FS.isdir, List.any_cons, Bool.or_eq_true]
  exact Or.inr h

theorem FS.isdir_writeFile (fs : FS) (p c q : String) :
    (fs.writeFile p c).isdir q = fs.isdir q := rfl

theorem FS.isfile_mkdirs (fs : FS) (p q : String) :
    (fs.mkdirs p).isfile q = fs.isfile q := rfl

theorem FS.isfile_moveDir (fs : FS) (src dst q : String) :
    (fs.moveDir src dst).isfile q = fs.isfile q := rfl

theorem FS.readFile_mkdirs (fs : FS) (p q : String) :
    (fs.mkdirs p).readFile q = fs.readFile q := rfl

theorem FS.readFile_moveDir (fs : FS) (src dst q : String) :
    (fs.moveDir src dst).readFile q = fs.readFile q := rfl

theorem FS.isdir_moveDir_of (fs : FS) (src dst q : String)
    (hne : q ≠ src) (h : fs.isdir q = true) :
    (fs.moveDir src dst).isdir q = true := by
  simp only [FS.moveDir, FS.isdir, List.any_cons, Bool.or_eq_true]
  refine Or.inr ?_
  rw [any_filter_of_compat]
  · exact h
  · intro a ha
    have : a = q := eq_of_beq ha
    subst this
    simpa using hne

theorem FS.isdir_moveDir_dst (fs : FS) (src dst : String) :
    (fs.moveDir src dst).isdir dst = true := by
  simp [FS.moveDir, FS.isdir, List.any_cons]

theorem FS.isdir_moveDir_src (fs : FS) (src dst : String) :
    (fs.moveDir src dst).isdir src = (dst == src) := by
  simp only [FS.moveDir, FS.isdir, List.any_cons]
  rw [any_filter_excluded]
  · simp
  · intro a ha
    simp only [bne_iff_ne, ne_eq] at ha
    simpa using ha

theorem FS.isfile_writeFile_self (fs : FS) (p c : String) :
    (fs.writeFile p c).isfile p = true := by
  simp [FS.writeFile, FS.isfile, List.any_cons]

theorem FS.isfile_writeFile_mono (fs : FS) (p c q : String)
    (h : fs.isfile q = true) :
    (fs.writeFile p c).isfile q = true := by
  by_cases hpq : p = q
  · subst hpq
    exact fs.isfile_writeFile_self p c
  · simp only [FS.writeFile, FS.isfile, List.any_cons, Bool.or_eq_true]
    refine Or.inr ?_
    rw [any_filter_of_compat]
    · exact h
    · intro a ha
      have : a.1 = q := eq_of_beq ha
      simp [bne_iff_ne, this, Ne.symm hpq]

theorem FS.readFile_writeFile_self (fs : FS) (p c : String) :
    (fs.writeFile p c).readFile p = some c := by
  simp [FS.writeFile, FS.readFile, List.find?_cons]

theorem FS.readFile_writeFile_ne (fs : FS) (p c q : String) (h : q ≠ p) :
    (fs.writeFile p c).readFile q = fs.readFile q := by
  have hpq : (p == q) = false := by
    simpa using Ne.symm h
  simp only [FS.writeFile, FS.readFile, List.find?_cons, hpq]
  rw [find?_filter_of_compat]
  intro a ha
  have : a.1 = q := eq_of_beq ha
  simp [bne_iff_ne, this, h]

/-! Path distinctness facts. -/

theorem ne_pjoin_self (p s : String) : p ≠ pjoin p s := by
  intro h
  have hl := congrArg String.length h
  have hslash : ("/" : String).length = 1 := rfl
  simp only [pjoin, String.length_append, hslash] at hl
  omega

theorem last_two_of_append_eq (a b u v : List Char)
    (hu : 2 ≤ u.length) (hv : 2 ≤ v.length)
    (h : a ++ u = b ++ v) : u.reverse.take 2 = v.reverse.take 2 := by
  have h2 := congrArg (fun l => l.reverse.take 2) h
  simp only [List.reverse_append] at h2
  rwa [List.take_append_of_le_length (by simpa using hu),
       List.take_append_of_le_length (by simpa using hv)] at h2

theorem pjoin_sparse_ne_pjoin_git (x y : String) :
    pjoin x "sparse-checkout" ≠ pjoin y ".git" := by
  intro h
  have hd := congrArg String.data h
  simp only [pjoin, String.data_append] at hd
  have h2 := last_two_of_append_eq (x.data ++ "/".data) (y.data ++ "/".data)
    "sparse-checkout".data ".git".data (by decide) (by decide) (by simpa using hd)
  exact absurd h2 (by decide)

theorem FS.readFile_ite (c : Prop) [Decidable c] (a b : FS) (q : String) :
    (if c then a else b).readFile q = if c then a.readFile q else b.readFile q := by
  split <;> rfl

theorem readFile_sparse_fs1 (fs0 : FS) (path q : String) :
    (sparse_fs1 fs0 path).readFile q = fs0.readFile q := by
  unfold sparse_fs1
  split <;> rfl

theorem isdir_sparse_fs1 (fs0 : FS) (path : String) :
    (sparse_fs1 fs0 path).isdir path = true := by
  by_cases h : fs0.isdir path = true
  · simp [sparse_fs1, h]
  · simp [sparse_fs1, h, FS.isdir_mkdirs_self]

/-- A run of the sparse checkout that returns success leaves the module
directory in place and a sparse-checkout configuration file for this name in
the shared store. -/
theorem sparse_checkout_ok_state (topdir : String) (fs0 : FS)
    (name url path sparsefile tag : String) (fs' : FS) (effs : List SpEffect)
    (h : submodule_sparse_checkout topdir fs0 name url path sparsefile tag
          = (fs', effs, .ok ())) :
    fs'.isdir path = true ∧ fs'.isfile (sparse_gitsparse topdir name) = true := by
  unfold submodule_sparse_checkout at h
  by_cases hg : (sparse_fs1 fs0 path).isfile (sparse_gitsparse topdir name) = true
  · rw [if_pos hg] at h
    simp only [Prod.mk.injEq] at h
    obtain ⟨h1, -, -⟩ := h
    subst h1
    exact ⟨isdir_sparse_fs1 fs0 path, hg⟩
  · rw [if_neg hg] at h
    simp only [sparse_fullrun] at h
    split at h
    · simp at h
    · simp only [Prod.mk.injEq] at h
      obtain ⟨h1, -, -⟩ := h
      subst h1
      constructor
      · simp only [FS.isdir_writeFile]
        refine FS.isdir_moveDir_of _ _ _ _ (ne_pjoin_self path ".git") ?_
        split
        · exact FS.isdir_mkdirs_mono _ _ _ (isdir_sparse_fs1 fs0 path)
        · exact FS.isdir_mkdirs_mono _ _ _
            (FS.isdir_mkdirs_mono _ _ _ (isdir_sparse_fs1 fs0 path))
      · exact FS.isfile_writeFile_mono _ _ _ _ (FS.isfile_writeFile_self _ _ _)

/-! The claims. -/

/-- C1: refuted by the code (code bug).  Line 216 invokes the recursive
install pass with ("I:T"), which in Python is the plain string "I:T", not a
one-element tuple, so the membership test of line 262 becomes substring
containment.  A nested component with an empty requirement class (a legal
manifest value per section 6 of the spec) then passes the filter and is
checked out in full, although the claim says every nested class other than
I:T is skipped.  The first conjunct records that the nested pass of a full
checkout is indeed invoked with this filter. -/
theorem C1_nested_install_checks_out_empty_class :
    (submodule_checkout exAll "/root" "outer" "comp").1 = some nested_requiredlist
    ∧ installStep nested_requiredlist emptyClassNested = .full
    ∧ emptyClassNested.esmrequired ≠ "I:T" := by
  refine ⟨rfl, by decide, by decide⟩

/-- C2 counterexample: with two sibling components where the describe
invocation for the first raises, the status loop produces no line at all for
the second sibling and the error propagates, although the claim says the
remaining siblings of the status loop are still processed; the second
conjunct shows the sibling itself would have succeeded. -/
theorem C2_counterexample_status_does_not_continue :
    submodules_status describeFail [cmpA, cmpB] = ([], some "git describe failed")
    ∧ describeFail cmpB.name = .ok "v2" := by
  constructor <;> rfl

/-- C2 amended: a raising VCS invocation aborts the loop that is processing
the component in every operation: in the status loop no further sibling is
processed and the error propagates, and likewise in the update loop (shown
when the ls-remote query raises on a component whose path carries a .git
marker); install aborts as well, as the original claim already said. -/
theorem C2_amended_vcs_failure_aborts_siblings
    (describeOf : String → Except String String) (hasGit : String → Bool)
    (c : Component) (rest : List Component) (e e2 : String)
    (hd : describeOf c.name = .error e)
    (hg : hasGit (pjoin c.path ".git") = true) :
    submodules_status describeOf (c :: rest) = ([], some e)
    ∧ submodules_update hasGit (.error e2) (c :: rest) = ([.lsRemote], some e2) := by
  constructor
  · simp [submodules_status, hd]
  · simp [submodules_update, hg]

theorem C2_amended_witness :
    submodules_status describeFail (cmpA :: [cmpB]) = ([], some "git describe failed")
    ∧ submodules_update exAll (.error "ls-remote failed") (cmpA :: [cmpB])
        = ([.lsRemote], some "ls-remote failed") :=
  C2_amended_vcs_failure_aborts_siblings describeFail exAll cmpA [cmpB]
    "git describe failed" "ls-remote failed" rfl rfl

/-- C3: for a component with a sparse spec, once a run of the sparse install
returned success, a second run takes the idempotency guard of lines 179-181:
it finds the sparse-checkout configuration file in the metadata store,
changes no filesystem state, performs only the local rev-parse query and a
logged warning (no network effect), and returns success. -/
theorem C3_second_sparse_install_is_noop (topdir : String) (fs0 : FS)
    (name url path sparsefile tag : String) (fs' : FS) (effs : List SpEffect)
    (h : submodule_sparse_checkout topdir fs0 name url path sparsefile tag
          = (fs', effs, .ok ())) :
    submodule_sparse_checkout topdir fs' name url path sparsefile tag
      = (fs', [SpEffect.revParse, SpEffect.warnAlready name], .ok ())
    ∧ ∀ e ∈ [SpEffect.revParse, SpEffect.warnAlready name], e.isNetwork = false := by
  obtain ⟨hpath, hsp⟩ :=
    sparse_checkout_ok_state topdir fs0 name url path sparsefile tag fs' effs h
  constructor
  · unfold submodule_sparse_checkout
    have hfs1 : sparse_fs1 fs' path = fs' := by simp [sparse_fs1, hpath]
    rw [hfs1, if_pos hsp]
  · intro e he
    simp only [List.mem_cons, List.not_mem_nil, or_false] at he
    rcases he with rfl | rfl <;> rfl

theorem C3_witness :
    submodule_sparse_checkout "/top" demo_run.1 "foo" "https://x/foo" "ext/foo" ".sparse" "v1"
      = (demo_run.1, [SpEffect.revParse, SpEffect.warnAlready "foo"], .ok ())
    ∧ ∀ e ∈ [SpEffect.revParse, SpEffect.warnAlready "foo"], e.isNetwork = false :=
  C3_second_sparse_install_is_noop "/top" demo_fs0 "foo" "https://x/foo" "ext/foo"
    ".sparse" "v1" demo_run.1 demo_run.2.1 rfl

/-- C4: when a component passes the requirement filter, the choice between
the checkout strategies is decided solely by the presence of esmsparse: an
empty value dispatches to the full strategy, which never reaches
submodule_sparse_checkout (so no sparse-checkout configuration file is
created for the component), and a non-empty value dispatches to the sparse
strategy. -/
theorem C4_dispatch_solely_by_sparse_spec (rl : PyStrSeq) (c : Component)
    (hin : pyIn c.esmrequired rl = true) :
    (c.esmsparse = "" →
      installStep rl c = .full ∧ (installStep rl c).invokesSparse = false)
    ∧ (c.esmsparse ≠ "" → installStep rl c = .sparse) := by
  constructor
  · intro hs
    have hfull : installStep rl c = .full := by simp [installStep, hin, hs]
    exact ⟨hfull, by rw [hfull]; rfl⟩
  · intro hs
    simp [installStep, hin, hs]

theorem C4_witness :
    installStep (PyStrSeq.tuple ["T:T", "I:T"]) c4_comp = .full
    ∧ (installStep (PyStrSeq.tuple ["T:T", "I:T"]) c4_comp).invokesSparse = false :=
  (C4_dispatch_solely_by_sparse_spec (PyStrSeq.tuple ["T:T", "I:T"]) c4_comp
    (by decide)).1 rfl

/-- C5: install accepts the class set (T:T, I:T) without the optional flag
and (T:T, T:F, I:T) with it; a Tested-optional component is skipped with the
printed notice when the flag is unset and is checked out (sparse or full)
when the flag is set. -/
theorem C5_optional_flag_gates_tested_optional (c : Component)
    (h : c.esmrequired = "T:F") :
    commandline_esmrequired false = .tuple ["T:T", "I:T"]
    ∧ commandline_esmrequired true = .tuple ["T:T", "T:F", "I:T"]
    ∧ installStep (commandline_esmrequired false) c
        = .skipNotice ("Skipping optional component " ++ c.name)
    ∧ (installStep (commandline_esmrequired true) c = .sparse
       ∨ installStep (commandline_esmrequired true) c = .full) := by
  have h1 : pyIn "T:F" (commandline_esmrequired false) = false := by decide
  have h2 : strIn "T:F" "T:F" = true := by decide
  have h3 : pyIn "T:F" (commandline_esmrequired true) = true := by decide
  refine ⟨rfl, rfl, by simp [installStep, h, h1, h2], ?_⟩
  by_cases hs : c.esmsparse = ""
  · right
    simp [installStep, h, h3, hs]
  · left
    simp [installStep, h, h3, hs]

theorem C5_witness :
    commandline_esmrequired false = .tuple ["T:T", "I:T"]
    ∧ commandline_esmrequired true = .tuple ["T:T", "T:F", "I:T"]
    ∧ installStep (commandline_esmrequired false) c5_comp
        = .skipNotice ("Skipping optional component " ++ c5_comp.name)
    ∧ (installStep (commandline_esmrequired true) c5_comp = .sparse
       ∨ installStep (commandline_esmrequired true) c5_comp = .full) :=
  C5_optional_flag_gates_tested_optional c5_comp rfl

/-- C6: the status report is a pure function of the declared tag and the
described tag: declared and different gives the out-of-sync line, declared
and equal gives the at-tag line, and undeclared gives the no-tag line
whatever the description is. -/
theorem C6_status_pure_classification (name tag atag : String) :
    (tag ≠ "" → atag ≠ tag →
      statusLine name tag atag
        = "Submodule " ++ name ++ " " ++ atag ++ " is out of sync with .gitmodules " ++ tag)
    ∧ (tag ≠ "" → atag = tag →
      statusLine name tag atag = "Submodule " ++ name ++ " at tag " ++ tag)
    ∧ (tag = "" →
      statusLine name tag atag
        = "Submodule " ++ name ++ " has no tag defined in .gitmodules") := by
  refine ⟨?_, ?_, ?_⟩
  · intro h1 h2
    simp [statusLine, h1, h2]
  · intro h1 h2
    simp [statusLine, h1, h2]
  · intro h1
    simp [statusLine, h1]

theorem C6_witness :
    statusLine "modA" "v1" "v2"
      = "Submodule " ++ "modA" ++ " " ++ "v2" ++ " is out of sync with .gitmodules " ++ "v1" :=
  (C6_status_pure_classification "modA" "v1" "v2").1 (by decide) (by decide)

/-- C7: the update loop on one component: without a .git marker at its path
it is skipped silently with no git invocation at all; with a marker, the
configured remote URL is queried, and only a differing URL causes the extra
remote to be registered and the declared tag to be checked out, while a
matching URL causes no mutating operation (the query alone). -/
theorem C7_update_per_component (hasGit : String → Bool) (c : Component)
    (up : String) :
    (hasGit (pjoin c.path ".git") = false →
      submodules_update hasGit (.ok up) [c] = ([], none))
    ∧ (hasGit (pjoin c.path ".git") = true → up = c.url →
      submodules_update hasGit (.ok up) [c] = ([.lsRemote], none))
    ∧ (hasGit (pjoin c.path ".git") = true → up ≠ c.url →
      submodules_update hasGit (.ok up) [c]
        = ([.lsRemote, .remoteAdd "newbranch" c.url, .checkout c.esmtag], none)) := by
  refine ⟨?_, ?_, ?_⟩
  · intro h
    simp [submodules_update, h]
  · intro h hu
    simp [submodules_update, h, hu]
  · intro h hu
    simp [submodules_update, h, hu]

theorem C7_witness :
    submodules_update exAll (.ok "https://other/alpha") [cmpA]
      = ([.lsRemote, .remoteAdd "newbranch" cmpA.url, .checkout cmpA.esmtag], none) :=
  (C7_update_per_component exAll cmpA "https://other/alpha").2.2 rfl (by decide)

/-- C8: after the checkout work of submodule_checkout, the path/.git marker
decides the outcome: present gives the success line naming the component,
absent gives the fatal error naming the component. -/
theorem C8_full_checkout_postcondition (ex : String → Bool)
    (root name path : String) :
    (ex (pjoin (pjoin root path) ".git") = true →
      (submodule_checkout ex root name path).2
        = .success ("Successfully checked out " ++ name))
    ∧ (ex (pjoin (pjoin root path) ".git") = false →
      (submodule_checkout ex root name path).2
        = .fatal ("Failed to checkout " ++ name)) := by
  constructor
  · intro h
    simp [submodule_checkout, h]
  · intro h
    simp [submodule_checkout, h]

theorem C8_witness :
    (submodule_checkout exAll "/home" "outer" "comp").2
      = .success ("Successfully checked out " ++ "outer") :=
  (C8_full_checkout_postcondition exAll "/home" "outer" "comp").1 rfl

/-- C9: a first, non-skipped sparse checkout relocates the metadata
directory: afterwards path/.git is no longer a directory, the store entry
keyed by the component name is a directory, the sparse-checkout slot of the
store entry holds the content of the declared sparse file, and path/.git is
a redirect pointer file whose content is "gitdir: " followed by the relative
path from the module directory to the store entry.  The halias hypothesis
rules out the degenerate aliasing of the store entry with the in-tree marker
path itself. -/
theorem C9_sparse_relocates_metadata (topdir : String) (fs0 : FS)
    (name url path sparsefile tag content : String)
    (fs' : FS) (effs : List SpEffect) (res : Except String Unit)
    (hrun : submodule_sparse_checkout topdir fs0 name url path sparsefile tag
        = (fs', effs, res))
    (hguard : (sparse_fs1 fs0 path).isfile (sparse_gitsparse topdir name) = false)
    (hsrc : fs0.readFile (pjoin path sparsefile) = some content)
    (halias : pjoin (sparse_topgit0 topdir) name ≠ pjoin path ".git") :
    res = .ok ()
    ∧ fs'.isdir (pjoin path ".git") = false
    ∧ fs'.isdir (pjoin (sparse_topgit0 topdir) name) = true
    ∧ fs'.readFile (sparse_gitsparse topdir name) = some content
    ∧ fs'.readFile (pjoin path ".git")
        = some ("gitdir: " ++ os_relpath (pjoin (sparse_topgit0 topdir) name) path) := by
  unfold submodule_sparse_checkout at hrun
  simp only [hguard, Bool.false_eq_true, if_false] at hrun
  simp only [sparse_fullrun, FS.readFile_moveDir, FS.readFile_ite, FS.readFile_mkdirs,
    ite_self, readFile_sparse_fs1, hsrc] at hrun
  simp only [Prod.mk.injEq] at hrun
  obtain ⟨h1, -, h3⟩ := hrun
  subst h1
  subst h3
  refine ⟨rfl, ?_, ?_, ?_, ?_⟩
  · rw [FS.isdir_writeFile, FS.isdir_writeFile, FS.isdir_moveDir_src]
    simpa using halias
  · rw [FS.isdir_writeFile, FS.isdir_writeFile]
    exact FS.isdir_moveDir_dst _ _ _
  · have hne : sparse_gitsparse topdir name ≠ pjoin path ".git" := by
      unfold sparse_gitsparse
      exact pjoin_sparse_ne_pjoin_git _ path
    rw [FS.readFile_writeFile_ne _ _ _ _ hne]
    exact FS.readFile_writeFile_self _ _ _
  · exact FS.readFile_writeFile_self _ _ _

theorem C9_witness :
    demo_run.2.2 = .ok ()
    ∧ demo_run.1.isdir (pjoin "ext/foo" ".git") = false
    ∧ demo_run.1.isdir (pjoin (sparse_topgit0 "/top") "foo") = true
    ∧ demo_run.1.readFile (sparse_gitsparse "/top" "foo") = some "docs/*"
    ∧ demo_run.1.readFile (pjoin "ext/foo" ".git")
        = some ("gitdir: " ++ os_relpath (pjoin (sparse_topgit0 "/top") "foo") "ext/foo") :=
  C9_sparse_relocates_metadata "/top" demo_fs0 "foo" "https://x/foo" "ext/foo"
    ".sparse" "v1" "docs/*" demo_run.1 demo_run.2.1 demo_run.2.2 rfl
    (by decide) (by decide) (by decide)

/-- C10: a top-level install component whose class is outside the accepted
set and does not contain the "T:F" token is skipped silently: no notice is
printed and no checkout strategy is invoked. -/
theorem C10_silent_skip_outside_accepted_set (opt : Bool) (c : Component)
    (h1 : pyIn c.esmrequired (commandline_esmrequired opt) = false)
    (h2 : strIn "T:F" c.esmrequired = false) :
    installStep (commandline_esmrequired opt) c = .skipSilent := by
  simp [installStep, h1, h2]

theorem C10_witness :
    installStep (commandline_esmrequired false) c10_comp = .skipSilent :=
  C10_silent_skip_outside_accepted_set false c10_comp (by decide) (by decide)

end GitFleximod
